import Mathlib

/-!
Shallow embedding of the BookBridge marketplace (a Supabase-backed
peer-to-peer book app).  The definitions below are translated from the
repository's SQL migrations (tables, CHECK constraints, row-level-security
policies, the signup trigger) and from the client pages
`Checkout.tsx`, `Chat.tsx` and the AddBook form.

Conventions of the embedding:
* `auth.uid()` is an `Option UserId` (`none` = unauthenticated; a SQL
  comparison `NULL = x` is never true, hence `authEq none x = false`).
* SQL `DECIMAL` / `numeric` prices are exact rationals (`Option ℚ`,
  `none` = SQL NULL).
* Row-level security follows PostgreSQL semantics: with RLS enabled, a
  command with no policy is denied; an UPDATE policy with no WITH CHECK
  clause applies its USING expression to the updated row as well; an
  UPDATE whose USING filter matches no row updates nothing and reports
  no error (the behaviour the Supabase client surfaces to the pages).
-/

abbrev UserId := Nat

/-- SQL NULL-aware equality test `auth.uid() = x`: false when the caller is
unauthenticated (`auth.uid()` IS NULL). -/
def authEq (uid : Option UserId) (x : UserId) : Bool :=
  match uid with
  | none => false
  | some u => u == x

/-- Enum `book_mode` from the first migration. -/
inductive BookMode
  | sell
  | donate
  | exchange
deriving DecidableEq

/-- Enum `book_type` from the first migration. -/
inductive BookKind
  | textbook
  | novel
  | storybook
  | comics
  | biography
  | other
deriving DecidableEq

/-- Row of `public.profiles` (store-generated timestamps omitted). -/
structure ProfileRow where
  id : UserId
  full_name : Option String
  avatar_url : Option String
  bio : Option String
deriving DecidableEq

/-- Row of `public.books` (timestamps omitted).  `available_copies` is an
`integer NOT NULL DEFAULT 1` with no non-negativity constraint, so it is
modelled as `Int`. -/
structure BookRow where
  id : Nat
  user_id : UserId
  title : String
  author : String
  category : String
  book_type : BookKind
  mode : BookMode
  price : Option ℚ
  description : Option String
  image_url : Option String
  available_copies : Int
deriving DecidableEq

/-- Row of `orders` (store-generated id and timestamps omitted). -/
structure OrderRow where
  book_id : Nat
  buyer_id : UserId
  seller_id : UserId
  quantity : Int
  total_price : ℚ
  full_name : String
  phone : String
  address_line1 : String
  address_line2 : Option String
  city : String
  state : String
  pincode : String
  payment_method : String
  status : String
deriving DecidableEq

/-- Row of `messages` as used by `Chat.tsx` (`id`, `conversation_id` and
`created_at` are store-generated; `created_at` is modelled as a `Nat`
timestamp). -/
structure MessageRow where
  id : Nat
  conversation_id : Nat
  sender_id : UserId
  content : String
  read : Bool
  created_at : Nat
deriving DecidableEq

/-- CHECK constraint `price_required_for_sell` on `public.books`:
`(mode != 'sell') OR (mode = 'sell' AND price IS NOT NULL AND price > 0)`. -/
def price_required_for_sell (b : BookRow) : Bool :=
  (b.mode ≠ BookMode.sell) || (b.mode = BookMode.sell && b.price.isSome
    && (0 < b.price.getD 0))

/-! Row-level-security policies, one decision function per command per
table, translated policy by policy from the migrations.  A command with no
CREATE POLICY is denied outright (RLS default deny). -/

/-- Policy "Public profiles are viewable by everyone": SELECT USING (true). -/
def profiles_select_allowed (_uid : Option UserId) (_r : ProfileRow) : Bool :=
  true

/-- Policy "Users can insert own profile": INSERT WITH CHECK (auth.uid() = id). -/
def profiles_insert_allowed (uid : Option UserId) (newRow : ProfileRow) : Bool :=
  authEq uid newRow.id

/-- Policy "Users can update own profile": UPDATE USING (auth.uid() = id);
with no WITH CHECK clause the USING expression is also applied to the
updated row. -/
def profiles_update_allowed (uid : Option UserId) (oldRow newRow : ProfileRow) : Bool :=
  authEq uid oldRow.id && authEq uid newRow.id

/-- No DELETE policy exists on `public.profiles`; with RLS enabled the
command is denied for every caller. -/
def profiles_delete_allowed (_uid : Option UserId) (_r : ProfileRow) : Bool :=
  false

/-- Policy "Books are viewable by everyone": SELECT USING (true). -/
def books_select_allowed (_uid : Option UserId) (_r : BookRow) : Bool :=
  true

/-- Policy "Users can insert own books": INSERT WITH CHECK (auth.uid() = user_id). -/
def books_insert_allowed (uid : Option UserId) (newRow : BookRow) : Bool :=
  authEq uid newRow.user_id

/-- Policy "Users can update own books": UPDATE USING (auth.uid() = user_id);
the USING expression doubles as the WITH CHECK on the updated row. -/
def books_update_allowed (uid : Option UserId) (oldRow newRow : BookRow) : Bool :=
  authEq uid oldRow.user_id && authEq uid newRow.user_id

/-- Policy "Users can delete own books": DELETE USING (auth.uid() = user_id). -/
def books_delete_allowed (uid : Option UserId) (r : BookRow) : Bool :=
  authEq uid r.user_id

/-- Policy "Users can view their own orders": SELECT USING
(auth.uid() = buyer_id OR auth.uid() = seller_id). -/
def orders_select_allowed (uid : Option UserId) (r : OrderRow) : Bool :=
  authEq uid r.buyer_id || authEq uid r.seller_id

/-- Policy "Users can create orders": INSERT WITH CHECK (auth.uid() = buyer_id). -/
def orders_insert_allowed (uid : Option UserId) (newRow : OrderRow) : Bool :=
  authEq uid newRow.buyer_id

/-- No UPDATE policy exists on `orders`: denied for every caller. -/
def orders_update_allowed (_uid : Option UserId) (_oldRow _newRow : OrderRow) : Bool :=
  false

/-- No DELETE policy exists on `orders`: denied for every caller. -/
def orders_delete_allowed (_uid : Option UserId) (_r : OrderRow) : Bool :=
  false

lemma authEq_eq_true_iff (uid : Option UserId) (x : UserId) :
    authEq uid x = true ↔ uid = some x := by
  cases uid with
  | none => simp [authEq]
  | some u => simp [authEq]

/-- C3: orders access control.  An insert is allowed iff the acting
identity equals the new row's `buyer_id`; a row is readable iff the acting
identity is its buyer or its seller (anyone else is filtered out, i.e. the
read comes back empty); no UPDATE and no DELETE is ever allowed, since the
migrations grant no such policy. -/
theorem orders_policy_characterization (uid : Option UserId)
    (o oldRow newRow : OrderRow) :
    (orders_insert_allowed uid o = true ↔ uid = some o.buyer_id) ∧
    (orders_select_allowed uid o = true ↔
      (uid = some o.buyer_id ∨ uid = some o.seller_id)) ∧
    orders_update_allowed uid oldRow newRow = false ∧
    orders_delete_allowed uid o = false := by
  refine ⟨?_, ?_, rfl, rfl⟩
  · exact authEq_eq_true_iff uid o.buyer_id
  · simp [orders_select_allowed, Bool.or_eq_true, authEq_eq_true_iff]

/-- C2 counterexample: the claim says every write on profiles succeeds for
the row's owner, but `public.profiles` has no DELETE policy, so even the
owner (acting identity 1 on the profile with id 1) is denied the delete. -/
theorem owner_profile_delete_denied :
    profiles_delete_allowed (some 1)
      { id := 1, full_name := none, avatar_url := none, bio := none } = false := by
  rfl

/-- C2 (amended): reads on profiles and books always succeed; a books
insert is allowed iff the identity equals the new row's owner, a books
delete iff it equals the existing row's owner, and a books or profiles
update iff it equals the owner field of both the existing and the updated
row; a profiles insert is allowed iff the identity equals the new row's id;
a profiles delete is never allowed (no policy exists for it). -/
theorem profiles_books_policy_characterization (uid : Option UserId)
    (p pOld pNew : ProfileRow) (b bOld bNew : BookRow) :
    profiles_select_allowed uid p = true ∧
    books_select_allowed uid b = true ∧
    (profiles_insert_allowed uid p = true ↔ uid = some p.id) ∧
    (profiles_update_allowed uid pOld pNew = true ↔
      (uid = some pOld.id ∧ uid = some pNew.id)) ∧
    profiles_delete_allowed uid p = false ∧
    (books_insert_allowed uid b = true ↔ uid = some b.user_id) ∧
    (books_update_allowed uid bOld bNew = true ↔
      (uid = some bOld.user_id ∧ uid = some bNew.user_id)) ∧
    (books_delete_allowed uid b = true ↔ uid = some b.user_id) := by
  refine ⟨rfl, rfl, authEq_eq_true_iff uid p.id, ?_, rfl,
    authEq_eq_true_iff uid b.user_id, ?_, authEq_eq_true_iff uid b.user_id⟩
  · simp [profiles_update_allowed, Bool.and_eq_true, authEq_eq_true_iff]
  · simp [books_update_allowed, Bool.and_eq_true, authEq_eq_true_iff]

/-- Persisted state of the three tables the claims are about. -/
structure Store where
  profiles : List ProfileRow
  books : List BookRow
  orders : List OrderRow
deriving DecidableEq

/-- Store-side processing of a books INSERT: the row is accepted iff its
INSERT policy ("Users can insert own books") and the CHECK constraint
`price_required_for_sell` both pass; otherwise the write is rejected
(`none`) and nothing changes. -/
def insertBook (uid : Option UserId) (b : BookRow) (st : Store) : Option Store :=
  if books_insert_allowed uid b && price_required_for_sell b then
    some { st with books := st.books ++ [b] }
  else
    none

/-- Price submitted by the AddBook form (part_002 `handleSubmit`):
`price: formData.mode === "sell" ? parseFloat(formData.price) : null`.
The numeric value of the parsed field is passed in as `p`. -/
def clientBookPrice (mode : BookMode) (p : ℚ) : Option ℚ :=
  if mode = BookMode.sell then some p else none

/-- Fixture: a donate-mode book carrying a non-null price, listed by user 7. -/
def donatePricedBook : BookRow :=
  { id := 10, user_id := 7, title := ("Gifted"), author := ("A"),
    category := ("Fiction"), book_type := BookKind.novel,
    mode := BookMode.donate, price := some 5, description := none,
    image_url := none, available_copies := 1 }

/-- C1 counterexample: the claim says inserting a non-sell book with a
non-null price is rejected by the store, but the CHECK constraint
`(mode != 'sell') OR (...)` is satisfied by any non-sell row whatever its
price, so the store accepts a donate-mode book priced 5 inserted by its
owner. -/
theorem donate_with_price_accepted :
    (insertBook (some 7) donatePricedBook
      { profiles := [], books := [], orders := [] }).isSome = true := by
  rfl

/-- C1 (amended): the store enforces only the forward direction of the
claimed equivalence: a book row passes the CHECK constraint iff
(mode = sell → price present and > 0), so sell-mode rows with a null,
zero or negative price are rejected while non-sell rows are accepted
regardless of price; an owner-submitted insert succeeds iff that check
passes; the AddBook client, for its part, always submits a null price for
non-sell modes. -/
theorem sell_price_check_characterization :
    (∀ b : BookRow, price_required_for_sell b = true ↔
      (b.mode = BookMode.sell → (b.price.isSome = true ∧ 0 < b.price.getD 0))) ∧
    (∀ (uid : UserId) (b : BookRow) (st : Store), b.user_id = uid →
      ((insertBook (some uid) b st).isSome = true ↔
        price_required_for_sell b = true)) ∧
    (∀ (m : BookMode) (p : ℚ), m ≠ BookMode.sell → clientBookPrice m p = none) := by
  refine ⟨?_, ?_, ?_⟩
  · intro b
    cases hm : b.mode <;>
      simp [price_required_for_sell, hm, Bool.and_eq_true, decide_eq_true_eq]
  · intro uid b st h
    have hb : books_insert_allowed (some uid) b = true := by
      simp [books_insert_allowed, authEq, h]
    cases hc : price_required_for_sell b
    · simp [insertBook, hb, hc]
    · simp [insertBook, hb, hc]
  · intro m p hm
    simp [clientBookPrice, hm]

/-- Fixture: a sell-mode book whose price is zero (violates the CHECK). -/
def zeroPricedSellBook : BookRow :=
  { donatePricedBook with mode := BookMode.sell, price := some 0 }

/-- C1 witness: the amended claim applied at concrete inputs — the CHECK
characterization on a zero-priced sell book, the insert characterization
for owner 7 inserting `donatePricedBook`, and the client price rule at the
donate mode (hypothesis `donate ≠ sell` discharged by decide). -/
theorem sell_price_check_witness :
    (price_required_for_sell zeroPricedSellBook = true ↔
      (zeroPricedSellBook.mode = BookMode.sell →
        (zeroPricedSellBook.price.isSome = true ∧
          0 < zeroPricedSellBook.price.getD 0))) ∧
    ((insertBook (some 7) donatePricedBook
        { profiles := [], books := [], orders := [] }).isSome = true ↔
      price_required_for_sell donatePricedBook = true) ∧
    clientBookPrice BookMode.donate 5 = none :=
  ⟨sell_price_check_characterization.1 zeroPricedSellBook,
    sell_price_check_characterization.2.1 7 donatePricedBook
      { profiles := [], books := [], orders := [] } rfl,
    sell_price_check_characterization.2.2 BookMode.donate 5 (by decide)⟩

/-! Order / inventory workflow, translated from `Checkout.tsx` `handleSubmit`. -/

/-- JavaScript numeric multiplication `book.price * quantity` as performed
by `Checkout.tsx`: a SQL-NULL price arrives as JS `null`, which `*`
coerces to 0. -/
def jsNumTimes (p : Option ℚ) (q : Int) : ℚ :=
  p.getD 0 * q

/-- Validated checkout form data (output of the zod schema in
`Checkout.tsx`; `addressLine2` is optional). -/
structure CheckoutFormData where
  fullName : String
  email : String
  phone : String
  addressLine1 : String
  addressLine2 : Option String
  city : String
  state : String
  pincode : String
deriving DecidableEq

/-- JS expression `data.addressLine2 || null`: undefined or the empty
string becomes null. -/
def jsOrNull (s : Option String) : Option String :=
  match s with
  | none => none
  | some v => if v = ("") then none else some v

/-- The order payload built by `Checkout.tsx` for
`supabase.from("orders").insert([...])`. -/
def checkoutOrder (uid : UserId) (book : BookRow) (quantity : Int)
    (fd : CheckoutFormData) : OrderRow :=
  { book_id := book.id
    buyer_id := uid
    seller_id := book.user_id
    quantity := quantity
    total_price := jsNumTimes book.price quantity
    full_name := fd.fullName
    phone := fd.phone
    address_line1 := fd.addressLine1
    address_line2 := jsOrNull fd.addressLine2
    city := fd.city
    state := fd.state
    pincode := fd.pincode
    payment_method := ("cod")
    status := ("pending") }

/-- Store-side processing of an orders INSERT: accepted iff the INSERT
policy "Users can create orders" passes; a policy violation is an error
(`none`). -/
def applyInsertOrder (uid : Option UserId) (o : OrderRow) (st : Store) :
    Option Store :=
  if orders_insert_allowed uid o then
    some { st with orders := st.orders ++ [o] }
  else
    none

/-- Helper: the updated row produced by
`update({ available_copies: v })` on a book row. -/
def setCopies (b : BookRow) (v : Int) : BookRow :=
  { b with available_copies := v }

/-- Store-side processing of
`from("books").update({available_copies: v}).eq("id", bid)`: under RLS the
UPDATE policy's USING expression filters the candidate rows, so rows the
caller does not own are simply skipped; the command reports success even
when it matched zero rows (the updated row also passes the implied WITH
CHECK because `user_id` is unchanged). -/
def applyUpdateBookCopies (uid : Option UserId) (bid : Nat) (v : Int)
    (st : Store) : Store :=
  { st with books := st.books.map (fun b =>
      if b.id = bid ∧ books_update_allowed uid b (setCopies b v) = true then
        setCopies b v
      else
        b) }

/-- The book fetch of `Checkout.tsx` (`.select("*").eq("id", bookId).single()`). -/
def fetchBook (st : Store) (bid : Nat) : Option BookRow :=
  st.books.find? (fun b => b.id == bid)

/-- Checkout `handleSubmit` from `Checkout.tsx`, composed with the store's
policy semantics.  Control flow follows the source: no session → redirect
(no writes); requested quantity above the last-read `available_copies` →
local rejection (no writes); otherwise insert the order row and, only if
that succeeded, write `available_copies := snapshot − quantity` on the
book.  `book` is the client's snapshot from its earlier fetch. -/
def handleSubmitStore (session : Option UserId) (book : BookRow)
    (quantity : Int) (fd : CheckoutFormData) (st : Store) : Store :=
  match session with
  | none => st
  | some uid =>
    if quantity > book.available_copies then st
    else
      match applyInsertOrder (some uid) (checkoutOrder uid book quantity fd) st with
      | none => st
      | some st1 =>
          applyUpdateBookCopies (some uid) book.id
            (book.available_copies - quantity) st1

/-- Fixture: a validated checkout form. -/
def sampleFormData : CheckoutFormData :=
  { fullName := ("Asha Rao"), email := ("asha@example.com"),
    phone := ("9876543210"), addressLine1 := ("12 Lake Road"),
    addressLine2 := none, city := ("Pune"), state := ("MH"),
    pincode := ("411001") }

/-- Fixture: the spec's end-to-end purchase scenario book — priced 200,
three copies available, owned by user 9. -/
def scenarioBook : BookRow :=
  { id := 1, user_id := 9, title := ("Algebra"), author := ("B"),
    category := ("Math"), book_type := BookKind.textbook,
    mode := BookMode.sell, price := some 200, description := none,
    image_url := none, available_copies := 3 }

/-- Fixture: store holding exactly the scenario book. -/
def scenarioStore : Store :=
  { profiles := [], books := [scenarioBook], orders := [] }

/-- C4: evaluation of the scenario at the failing input (buyer 2,
seller 9, price 200, copies 3, quantity 2).  The order row is created
exactly as claimed (total_price 400, status pending, payment cod, buyer =
session identity, seller = book owner), but the follow-up
`available_copies` write is issued by the buyer, whom the owner-only
UPDATE policy on books filters out, so it matches zero rows, raises no
error, and leaves `available_copies` at 3 instead of the claimed 1. -/
theorem checkout_scenario_copies_not_decremented :
    (handleSubmitStore (some 2) scenarioBook 2 sampleFormData scenarioStore).orders =
      [checkoutOrder 2 scenarioBook 2 sampleFormData] ∧
    (checkoutOrder 2 scenarioBook 2 sampleFormData).total_price = 400 ∧
    (checkoutOrder 2 scenarioBook 2 sampleFormData).status = ("pending") ∧
    (checkoutOrder 2 scenarioBook 2 sampleFormData).payment_method = ("cod") ∧
    (checkoutOrder 2 scenarioBook 2 sampleFormData).buyer_id = 2 ∧
    (checkoutOrder 2 scenarioBook 2 sampleFormData).seller_id = 9 ∧
    (handleSubmitStore (some 2) scenarioBook 2 sampleFormData scenarioStore).books.map
      (fun b => b.available_copies) = [3] := by
  refine ⟨rfl, ?_, rfl, rfl, rfl, rfl, rfl⟩
  norm_num [checkoutOrder, jsNumTimes, scenarioBook]

lemma list_map_eq_self {α : Type} (l : List α) (f : α → α)
    (h : ∀ a ∈ l, f a = a) : l.map f = l := by
  induction l with
  | nil => rfl
  | cons x xs ih =>
      simp only [List.map_cons, h x (by simp)]
      rw [ih (fun a ha => h a (by simp [ha]))]

/-- Fixture: a donate-mode book (price NULL), two copies, owned by user 9. -/
def donateBook : BookRow :=
  { id := 5, user_id := 9, title := ("Stories"), author := ("C"),
    category := ("Fiction"), book_type := BookKind.storybook,
    mode := BookMode.donate, price := none, description := none,
    image_url := none, available_copies := 2 }

/-- Fixture: store holding exactly the donate book. -/
def donateStore : Store :=
  { profiles := [], books := [donateBook], orders := [] }

/-- C10 counterexample: the claim asserts that for a priced-absent book
the checkout decrements `available_copies`; running the embedded checkout
for buyer 4 on the donate book (copies 2, quantity 1) inserts the order
with total_price 0 but leaves `available_copies` at 2 — the buyer-issued
books update matches no rows under the owner-only UPDATE policy. -/
theorem donate_checkout_copies_unchanged :
    (handleSubmitStore (some 4) donateBook 1 sampleFormData donateStore).orders =
      [checkoutOrder 4 donateBook 1 sampleFormData] ∧
    (checkoutOrder 4 donateBook 1 sampleFormData).total_price = 0 ∧
    (handleSubmitStore (some 4) donateBook 1 sampleFormData donateStore).books.map
      (fun b => b.available_copies) = [2] := by
  refine ⟨rfl, ?_, rfl⟩
  norm_num [checkoutOrder, jsNumTimes, donateBook]

/-- C10 (amended): an authenticated buyer checking out a book whose price
is absent, with quantity within the last-read availability, is not
blocked: the order row is inserted with total_price 0 (JavaScript
coerces the null price to 0 in `book.price * quantity`), status
"pending" and payment_method "cod" — checkout never checks that the book
is in sell mode; the follow-up `available_copies` write is issued but,
when the buyer owns none of the stored books, it matches no rows under
the owner-only UPDATE policy and the books table is left unchanged. -/
theorem null_price_checkout_succeeds (uid : UserId) (book : BookRow)
    (q : Int) (fd : CheckoutFormData) (st : Store)
    (hprice : book.price = none)
    (hq : ¬ (q > book.available_copies))
    (hnotmine : ∀ b ∈ st.books, b.user_id ≠ uid) :
    (handleSubmitStore (some uid) book q fd st).orders =
      st.orders ++ [checkoutOrder uid book q fd] ∧
    (checkoutOrder uid book q fd).total_price = 0 ∧
    (checkoutOrder uid book q fd).status = ("pending") ∧
    (checkoutOrder uid book q fd).payment_method = ("cod") ∧
    (handleSubmitStore (some uid) book q fd st).books = st.books := by
  have hins : orders_insert_allowed (some uid) (checkoutOrder uid book q fd) = true := by
    simp [orders_insert_allowed, checkoutOrder, authEq]
  have hres : handleSubmitStore (some uid) book q fd st =
      applyUpdateBookCopies (some uid) book.id (book.available_copies - q)
        { st with orders := st.orders ++ [checkoutOrder uid book q fd] } := by
    simp [handleSubmitStore, hq, applyInsertOrder, hins]
  have hbooks : ∀ b ∈ st.books,
      (if b.id = book.id ∧ books_update_allowed (some uid) b
          (setCopies b (book.available_copies - q)) = true then
        setCopies b (book.available_copies - q)
      else b) = b := by
    intro b hb
    have : books_update_allowed (some uid) b
        (setCopies b (book.available_copies - q)) = false := by
      simp [books_update_allowed, setCopies, authEq,
        (by simpa [eq_comm] using hnotmine b hb : ¬ uid = b.user_id)]
    simp [this]
  refine ⟨?_, ?_, rfl, rfl, ?_⟩
  · rw [hres]; rfl
  · simp [checkoutOrder, jsNumTimes, hprice]
  · rw [hres]
    simpa [applyUpdateBookCopies] using list_map_eq_self st.books _ hbooks

/-- C10 witness: the amended claim applied to buyer 4 and the concrete
donate book (hypotheses discharged by rfl and decide). -/
theorem null_price_checkout_witness :
    (handleSubmitStore (some 4) donateBook 1 sampleFormData donateStore).orders =
      donateStore.orders ++ [checkoutOrder 4 donateBook 1 sampleFormData] ∧
    (checkoutOrder 4 donateBook 1 sampleFormData).total_price = 0 ∧
    (checkoutOrder 4 donateBook 1 sampleFormData).status = ("pending") ∧
    (checkoutOrder 4 donateBook 1 sampleFormData).payment_method = ("cod") ∧
    (handleSubmitStore (some 4) donateBook 1 sampleFormData donateStore).books =
      donateStore.books :=
  null_price_checkout_succeeds 4 donateBook 1 sampleFormData donateStore rfl
    (by decide) (by decide)

/-- A single listing with the given id, owner, price and copy count (the
spec's race scenario book). -/
def singleBook (bid : Nat) (owner : UserId) (p : Option ℚ)
    (copies : Int) : BookRow :=
  { id := bid, user_id := owner, title := ("X"), author := ("Y"),
    category := ("Fiction"), book_type := BookKind.novel,
    mode := BookMode.sell, price := p, description := none,
    image_url := none, available_copies := copies }

/-- Store holding exactly that single listing. -/
def singleBookStore (bid : Nat) (owner : UserId) (p : Option ℚ)
    (copies : Int) : Store :=
  { profiles := [], books := [singleBook bid owner p copies], orders := [] }

/-- The oversell interleaving: buyers `a` and `b` both fetch the book from
the same initial store state (both reads land before either update), then
each runs the checkout `handleSubmit` for quantity 1, A first, B second,
against the evolving store. -/
def overSellRace (st : Store) (a b : UserId) (bid : Nat)
    (fdA fdB : CheckoutFormData) : Store :=
  match fetchBook st bid, fetchBook st bid with
  | some snapA, some snapB =>
      handleSubmitStore (some b) snapB 1 fdB
        (handleSubmitStore (some a) snapA 1 fdA st)
  | _, _ => st

/-- C6 counterexample: running the race (book 3, owner 9, one copy,
buyers 2 and 4) records both orders, but `available_copies` ends at 1 —
not at the claimed −1: each buyer writes its stale snapshot minus the
quantity (an absolute write of 0, not a decrement), and the buyer-issued
books update in any case matches zero rows under the owner-only UPDATE
policy. -/
theorem oversell_race_copies_not_negative :
    (overSellRace (singleBookStore 3 9 (some 100) 1) 2 4 3
      sampleFormData sampleFormData).orders.length = 2 ∧
    (overSellRace (singleBookStore 3 9 (some 100) 1) 2 4 3
      sampleFormData sampleFormData).books.map
        (fun bk => bk.available_copies) = [1] ∧
    ¬ ((overSellRace (singleBookStore 3 9 (some 100) 1) 2 4 3
      sampleFormData sampleFormData).books.map
        (fun bk => bk.available_copies) = [-1]) := by
  have h2 : (overSellRace (singleBookStore 3 9 (some 100) 1) 2 4 3
      sampleFormData sampleFormData).books.map
        (fun bk => bk.available_copies) = [1] := rfl
  refine ⟨rfl, h2, ?_⟩
  rw [h2]
  decide

/-- C6 (amended): for a book with one available copy and two distinct
buyers neither of whom owns it, both availability checks pass against the
shared stale read and both quantity-1 orders are recorded — the oversell
defect is real — but `available_copies` ends at 1, not −1: neither
buyer's absolute write of (stale read − 1) survives the owner-only books
UPDATE policy, and even if applied it would write 0, since the client
writes snapshot minus quantity rather than atomically decrementing. -/
theorem oversell_race_two_orders (a b owner : UserId) (bid : Nat)
    (p : Option ℚ) (fdA fdB : CheckoutFormData)
    (ha : a ≠ owner) (hb : b ≠ owner) :
    (overSellRace (singleBookStore bid owner p 1) a b bid fdA fdB).orders.length = 2 ∧
    (overSellRace (singleBookStore bid owner p 1) a b bid fdA fdB).books.map
      (fun bk => bk.available_copies) = [1] := by
  constructor <;>
    simp [overSellRace, singleBookStore, singleBook, fetchBook,
      handleSubmitStore, applyInsertOrder, orders_insert_allowed,
      checkoutOrder, authEq, applyUpdateBookCopies, books_update_allowed,
      setCopies, ha, hb, lt_self_iff_false]

/-- C6 witness: the amended race theorem applied at buyers 2 and 4 against
owner 9 (the distinctness hypotheses discharged by decide). -/
theorem oversell_race_witness :
    (overSellRace (singleBookStore 3 9 (some 100) 1) 2 4 3
      sampleFormData sampleFormData).orders.length = 2 ∧
    (overSellRace (singleBookStore 3 9 (some 100) 1) 2 4 3
      sampleFormData sampleFormData).books.map
        (fun bk => bk.available_copies) = [1] :=
  oversell_race_two_orders 2 4 9 3 (some 100) sampleFormData sampleFormData
    (by decide) (by decide)

/-- Vocabulary of store calls the checkout client can issue (the platform
also supports row deletes, so a compensating order delete is expressible
even though `handleSubmit` never issues one). -/
inductive StoreCall
  | insertOrderCall (o : OrderRow)
  | updateBookCopiesCall (bid : Nat) (v : Int)
  | deleteOrderCall (o : OrderRow)
deriving DecidableEq

/-- The sequence of store calls issued by `Checkout.tsx` `handleSubmit`,
with the fate of each write supplied as an oracle: `insertOk` says whether
the orders insert succeeded.  On insert failure the code throws before the
books update, so that call is never issued; on update failure the catch
block only logs and toasts, so the issued sequence does not depend on the
update's fate (`_updateOk`) and nothing compensating follows. -/
def checkoutCalls (session : Option UserId) (book : BookRow)
    (quantity : Int) (fd : CheckoutFormData) (insertOk : Bool)
    (_updateOk : Bool) : List StoreCall :=
  match session with
  | none => []
  | some uid =>
    if quantity > book.available_copies then []
    else
      StoreCall.insertOrderCall (checkoutOrder uid book quantity fd) ::
        (if insertOk then
          [StoreCall.updateBookCopiesCall book.id
            (book.available_copies - quantity)]
        else [])

/-- C5: two-step order workflow failure behaviour.  If step 1 (the order
insert) fails, step 2 (the copies write) is never issued, so inventory is
untouched; if step 2 fails after step 1 succeeded, the call sequence ends
with the failed copies write — the order stays recorded, inventory was
never decremented, and no further call follows; and no execution ever
issues an order delete (no rollback/compensation exists). -/
theorem checkout_two_step_failure_behavior (uid : UserId) (book : BookRow)
    (q : Int) (fd : CheckoutFormData) (uok : Bool)
    (hq : ¬ (q > book.available_copies)) :
    checkoutCalls (some uid) book q fd false uok =
      [StoreCall.insertOrderCall (checkoutOrder uid book q fd)] ∧
    checkoutCalls (some uid) book q fd true false =
      [StoreCall.insertOrderCall (checkoutOrder uid book q fd),
       StoreCall.updateBookCopiesCall book.id (book.available_copies - q)] ∧
    (∀ (iok uok2 : Bool) (o : OrderRow),
      StoreCall.deleteOrderCall o ∉ checkoutCalls (some uid) book q fd iok uok2) := by
  refine ⟨by simp [checkoutCalls, hq], by simp [checkoutCalls, hq], ?_⟩
  intro iok uok2 o
  cases iok <;> simp [checkoutCalls, hq]

/-- C5 witness: the failure-behaviour theorem applied to buyer 2 and the
scenario book at quantity 2 (the availability hypothesis discharged by
decide). -/
theorem checkout_two_step_failure_witness :
    checkoutCalls (some 2) scenarioBook 2 sampleFormData false true =
      [StoreCall.insertOrderCall (checkoutOrder 2 scenarioBook 2 sampleFormData)] ∧
    checkoutCalls (some 2) scenarioBook 2 sampleFormData true false =
      [StoreCall.insertOrderCall (checkoutOrder 2 scenarioBook 2 sampleFormData),
       StoreCall.updateBookCopiesCall scenarioBook.id
         (scenarioBook.available_copies - 2)] ∧
    (∀ (iok uok2 : Bool) (o : OrderRow),
      StoreCall.deleteOrderCall o ∉
        checkoutCalls (some 2) scenarioBook 2 sampleFormData iok uok2) :=
  checkout_two_step_failure_behavior 2 scenarioBook 2 sampleFormData true
    (by decide)

/-! Messaging, translated from `Chat.tsx`. -/

/-- Per-row effect of the `markMessagesAsRead` update in `Chat.tsx`:
`update({read: true}).eq("conversation_id", cid).neq("sender_id", uid)
.eq("read", false)` — a row matching all three filters gets `read := true`,
any other row is untouched. -/
def markRead1 (cid : Nat) (uid : UserId) (m : MessageRow) : MessageRow :=
  if m.conversation_id = cid ∧ m.sender_id ≠ uid ∧ m.read = false then
    { m with read := true }
  else
    m

/-- `markMessagesAsRead` applied to the stored messages table. -/
def markMessagesAsRead (cid : Nat) (uid : UserId)
    (msgs : List MessageRow) : List MessageRow :=
  msgs.map (markRead1 cid uid)

/-- C7: mark-as-read is idempotent — a second invocation with the same
conversation and caller changes nothing — and it never modifies a message
that is already read or that was sent by the caller. -/
theorem markMessagesAsRead_idempotent (cid : Nat) (uid : UserId)
    (msgs : List MessageRow) :
    markMessagesAsRead cid uid (markMessagesAsRead cid uid msgs) =
      markMessagesAsRead cid uid msgs ∧
    (∀ m : MessageRow, m.read = true ∨ m.sender_id = uid →
      markRead1 cid uid m = m) := by
  have huntouched : ∀ m : MessageRow, m.read = true ∨ m.sender_id = uid →
      markRead1 cid uid m = m := by
    intro m hm
    rcases hm with hr | hs
    · simp [markRead1, hr]
    · simp [markRead1, hs]
  refine ⟨?_, huntouched⟩
  have hfix : ∀ m : MessageRow,
      markRead1 cid uid (markRead1 cid uid m) = markRead1 cid uid m := by
    intro m
    by_cases h : m.conversation_id = cid ∧ m.sender_id ≠ uid ∧ m.read = false
    · simp [markRead1, h]
    · simp only [markRead1, if_neg h]
  simp only [markMessagesAsRead, List.map_map]
  exact List.map_congr_left (fun m _ => hfix m)

/-- Fixture: a message in conversation 1 from user 9, already read. -/
def readMessage : MessageRow :=
  { id := 21, conversation_id := 1, sender_id := 9,
    content := ("hello"), read := true, created_at := 100 }

/-- C7 witness: the idempotence theorem applied at conversation 1, caller
5 and a one-message table, and the untouched clause discharged on the
already-read fixture message. -/
theorem markMessagesAsRead_idempotent_witness :
    markMessagesAsRead 1 5 (markMessagesAsRead 1 5 [readMessage]) =
      markMessagesAsRead 1 5 [readMessage] ∧
    markRead1 1 5 readMessage = readMessage :=
  ⟨(markMessagesAsRead_idempotent 1 5 [readMessage]).1,
    (markMessagesAsRead_idempotent 1 5 [readMessage]).2 readMessage
      (Or.inl rfl)⟩

/-- Observable effect of the realtime subscription callback in `Chat.tsx`
(lines 60–64): which messages the client holds afterwards and whether a
`markMessagesAsRead` call was issued. -/
structure RealtimeEffect where
  messagesAfter : List MessageRow
  markAsReadIssued : Bool
deriving DecidableEq

/-- The `postgres_changes` INSERT handler from `Chat.tsx`: it appends the
delivered row to the in-memory list and scrolls; it inspects neither the
sender nor the read flag and issues no further store call. -/
def onRealtimeInsert (msgs : List MessageRow) (payload : MessageRow) :
    RealtimeEffect :=
  { messagesAfter := msgs ++ [payload], markAsReadIssued := false }

/-- Observable effect of `init` in `Chat.tsx`: whether the user was
redirected to sign-in and whether a `markMessagesAsRead` call was issued. -/
structure InitEffect where
  redirectedToAuth : Bool
  markAsReadIssued : Bool
deriving DecidableEq

/-- `init` from `Chat.tsx`: no session → redirect; with a session and a
conversation id it fetches the conversation and messages and then calls
`markMessagesAsRead`. -/
def chatInit (session : Option UserId) (conversationId : Option Nat) :
    InitEffect :=
  match session with
  | none => { redirectedToAuth := true, markAsReadIssued := false }
  | some _ =>
    match conversationId with
    | none => { redirectedToAuth := false, markAsReadIssued := false }
    | some _ => { redirectedToAuth := false, markAsReadIssued := true }

/-- Fixture: an unread message from user 9 (the other party for a viewer
with identity 5) in conversation 1. -/
def incomingMessage : MessageRow :=
  { id := 22, conversation_id := 1, sender_id := 9,
    content := ("are you there"), read := false, created_at := 101 }

/-- C8 counterexample: the claim says that on delivery of a message from
the other party the client issues a mark-as-read call; the subscription
handler appends the message but issues none (`markAsReadIssued = false`
even for this incoming other-party message). -/
theorem realtime_insert_no_markread_call :
    (onRealtimeInsert [] incomingMessage).messagesAfter = [incomingMessage] ∧
    (onRealtimeInsert [] incomingMessage).markAsReadIssued = false := by
  exact ⟨rfl, rfl⟩

/-- C8 (amended): mark-as-read is triggered on initial conversation open
only; the realtime subscription handler appends the delivered message to
the in-memory ordered list unconditionally — whoever the sender is — and
issues no mark-as-read call. -/
theorem markread_only_on_open (msgs : List MessageRow) (payload : MessageRow)
    (uid : UserId) (cid : Nat) :
    onRealtimeInsert msgs payload =
      { messagesAfter := msgs ++ [payload], markAsReadIssued := false } ∧
    chatInit (some uid) (some cid) =
      { redirectedToAuth := false, markAsReadIssued := true } ∧
    chatInit none (some cid) =
      { redirectedToAuth := true, markAsReadIssued := false } := by
  exact ⟨rfl, rfl, rfl⟩

/-! Signup provisioning, translated from the `handle_new_user` trigger. -/

/-- A row of `auth.users` as seen by the trigger: the new account's id and
the `full_name` field of its signup metadata
(`raw_user_meta_data->>'full_name'`, NULL when absent). -/
structure AuthUser where
  id : UserId
  raw_meta_full_name : Option String
deriving DecidableEq

/-- The profile row the trigger builds:
`(NEW.id, NEW.raw_user_meta_data->>'full_name')`. -/
def newProfileRow (newUser : AuthUser) : ProfileRow :=
  { id := newUser.id, full_name := newUser.raw_meta_full_name,
    avatar_url := none, bio := none }

/-- Trigger function `handle_new_user` (SECURITY DEFINER): inserts the new
profile row into `public.profiles`.  Running with definer privilege it
bypasses the row-level policies, so the insert is applied
unconditionally. -/
def handle_new_user (newUser : AuthUser) (profiles : List ProfileRow) :
    List ProfileRow :=
  profiles ++ [newProfileRow newUser]

/-- Account creation: the row lands in `auth.users` and the AFTER INSERT
trigger `on_auth_user_created` runs `handle_new_user`; no client-side
profiles insert is involved. -/
def signup (newUser : AuthUser) (st : Store) : Store :=
  { st with profiles := handle_new_user newUser st.profiles }

/-- C9: creating a fresh account (no profile row with its id exists yet)
leaves exactly one profile row with the new account's id, carrying the
signup metadata full_name — produced by the trigger alone.  Moreover the
ordinary policy path could not have produced it: an unauthenticated
principal's profiles insert is denied, which is why the trigger needs its
elevated (SECURITY DEFINER) privilege. -/
theorem signup_creates_unique_profile (newUser : AuthUser) (st : Store)
    (hfresh : ∀ p ∈ st.profiles, p.id ≠ newUser.id) :
    ((signup newUser st).profiles.filter
      (fun p => p.id == newUser.id)).length = 1 ∧
    (∀ p ∈ (signup newUser st).profiles, p.id = newUser.id →
      p.full_name = newUser.raw_meta_full_name) ∧
    profiles_insert_allowed none
      { id := newUser.id, full_name := newUser.raw_meta_full_name,
        avatar_url := none, bio := none } = false := by
  refine ⟨?_, ?_, rfl⟩
  · have hnone : st.profiles.filter (fun p => p.id == newUser.id) = [] := by
      refine List.filter_eq_nil_iff.mpr ?_
      intro p hp
      simpa using hfresh p hp
    simp [signup, handle_new_user, newProfileRow, List.filter_append, hnone]
  · intro p hp hid
    simp only [signup, handle_new_user, List.mem_append, List.mem_singleton] at hp
    rcases hp with hp | hp
    · exact absurd hid (hfresh p hp)
    · rw [hp]
      rfl

/-- Fixture: a fresh account whose signup metadata carries
full_name "Asha". -/
def ashaUser : AuthUser :=
  { id := 42, raw_meta_full_name := some ("Asha") }

/-- C9 witness: the provisioning theorem applied to the Asha account over
an empty store (freshness discharged trivially). -/
theorem signup_creates_unique_profile_witness :
    ((signup ashaUser { profiles := [], books := [], orders := [] }).profiles.filter
      (fun p => p.id == ashaUser.id)).length = 1 ∧
    (∀ p ∈ (signup ashaUser { profiles := [], books := [], orders := [] }).profiles,
      p.id = ashaUser.id → p.full_name = ashaUser.raw_meta_full_name) ∧
    profiles_insert_allowed none
      { id := ashaUser.id, full_name := ashaUser.raw_meta_full_name,
        avatar_url := none, bio := none } = false :=
  signup_creates_unique_profile ashaUser
    { profiles := [], books := [], orders := [] } (by simp)
